/-
Verification of the FocusClass core against its specification.

Shallow embedding of the relevant parts of the source:
  * src/src/common/focus_manager.py   (FocusManager)
  * src/src/common/screen_capture.py  (ScreenCaptureTrack, ScreenCapture, AdaptiveQuality)
  * src/src/teacher/teacher_app.py    (TeacherMainWindow: authentication, focus-mode toggle)

Conventions of the embedding:
  * Wall-clock time (time.time()) is modelled as an explicit rational
    parameter threaded through the state-changing operations.
  * Python sets become Finset / List, Python dicts become association lists.
  * Exceptions raised by Windows API calls are modelled by an explicit
    fault oracle (structure Faults); a Python `try/except` that swallows
    the exception becomes a conditional that leaves the guarded state
    untouched.
  * The platform is taken to be win32 (is_windows() = True), matching the
    environment the focus manager documents itself for.
-/
import Mathlib

namespace FocusClass

/-! ## Focus manager (src/src/common/focus_manager.py) -/

/-- Virtual-key codes from win32con used by `FocusManager.restricted_keys`. -/
def VK_SHIFT : ℕ := 0x10
def VK_CONTROL : ℕ := 0x11
def VK_MENU : ℕ := 0x12
def VK_ESCAPE : ℕ := 0x1B
def VK_TAB : ℕ := 0x09
def VK_DELETE : ℕ := 0x2E
def VK_F4 : ℕ := 0x73
def VK_LWIN : ℕ := 0x5B
def VK_RWIN : ℕ := 0x5C

/-- `FocusManager.restricted_keys`: the fixed table of restricted key
combinations (focus_manager.py lines 61-68). -/
def restricted_keys : List (String × List ℕ) :=
  [("alt_tab", [VK_MENU, VK_TAB]),
   ("win_key", [VK_LWIN, VK_RWIN]),
   ("ctrl_esc", [VK_CONTROL, VK_ESCAPE]),
   ("ctrl_shift_esc", [VK_CONTROL, VK_SHIFT, VK_ESCAPE]),
   ("alt_f4", [VK_MENU, VK_F4]),
   ("ctrl_alt_del", [VK_CONTROL, VK_MENU, VK_DELETE])]

/-- The state of `self.monitoring_thread`'s referent: a `threading.Thread`
that was constructed but whose `start()` raised, or one that is running.
Joining a never-started thread raises `RuntimeError`. -/
inductive ThreadState where
  | notStarted
  | started
  deriving DecidableEq

/-- State of a `FocusManager` instance (the fields of `__init__` that the
core logic reads or writes; logging handles are omitted).  Hook handles are
modelled as booleans: `true` means the hook is installed.
`monitoring_thread` mirrors `self.monitoring_thread` (`None` or a Thread
object that may or may not have been started). -/
structure FocusManager where
  focus_mode_active : Bool
  allowed_windows : List String
  violation_count : ℕ
  last_violation_time : ℚ
  keyboard_hook : Bool
  window_hook : Bool
  monitoring_thread : Option ThreadState
  pressed_keys : Finset ℕ
  deriving DecidableEq

/-- The state built by `FocusManager.__init__`. -/
def initFM : FocusManager :=
  { focus_mode_active := false
    allowed_windows := []
    violation_count := 0
    last_violation_time := 0
    keyboard_hook := false
    window_hook := false
    monitoring_thread := none
    pressed_keys := ∅ }

/-- `FocusManager._check_restricted_keys`: some restricted combination has
all of its keys in `pressed_keys`. -/
def check_restricted_keys (pressed : Finset ℕ) : Bool :=
  restricted_keys.any fun combo => combo.2.all fun key => decide (key ∈ pressed)

/-- `FocusManager._log_violation` at wall-clock time `t`: suppressed (state
unchanged, returns `false`) when less than one second has elapsed since the
last emitted violation; otherwise records the time, increments the count
and returns `true` (the violation is emitted through the callback). -/
def log_violation (st : FocusManager) (t : ℚ) : FocusManager × Bool :=
  if t - st.last_violation_time < 1 then (st, false)
  else ({ st with last_violation_time := t, violation_count := st.violation_count + 1 }, true)

/-- A simulated low-level keyboard event. -/
inductive KeyEvent where
  | down (vk : ℕ)
  | up (vk : ℕ)
  deriving DecidableEq

/-- The body of `keyboard_hook_proc` (focus_manager.py lines 158-176) for a
single event at wall-clock time `t`.  Returns the new state and whether the
restricted-chord check fired (i.e. `_log_violation` was invoked and the key
event was swallowed).  On key-down the key is added to `pressed_keys`
before the chord check; on key-up it is discarded and no check runs. -/
def keyboard_hook_proc (st : FocusManager) (t : ℚ) (e : KeyEvent) :
    FocusManager × Bool :=
  match e with
  | .down vk =>
      let st' := { st with pressed_keys := insert vk st.pressed_keys }
      if check_restricted_keys st'.pressed_keys then
        ((log_violation st' t).1, true)
      else
        (st', false)
  | .up vk =>
      ({ st with pressed_keys := st.pressed_keys.erase vk }, false)

/-- Process a list of timestamped key events through the keyboard hook,
counting how many of them fired the restricted-chord check. -/
def processKeyEvents (st : FocusManager) (evs : List (ℚ × KeyEvent)) :
    FocusManager × ℕ :=
  match evs with
  | [] => (st, 0)
  | (t, e) :: rest =>
      let r := keyboard_hook_proc st t e
      let r' := processKeyEvents r.1 rest
      (r'.1, (if r.2 then 1 else 0) + r'.2)

/-- The effect of one key event on the `pressed_keys` set alone. -/
def applyKey (pressed : Finset ℕ) (e : KeyEvent) : Finset ℕ :=
  match e with
  | .down vk => insert vk pressed
  | .up vk => pressed.erase vk

/-- Fault oracle for the Windows API calls made during
`enable_focus_mode` / `disable_focus_mode`.  A `true` field means the
corresponding call raises. -/
structure Faults where
  kb_hook_raises : Bool
  win_hook_raises : Bool
  start_monitoring_raises : Bool
  kb_unhook_raises : Bool
  win_unhook_raises : Bool
  deriving DecidableEq

def noFaults : Faults :=
  { kb_hook_raises := false
    win_hook_raises := false
    start_monitoring_raises := false
    kb_unhook_raises := false
    win_unhook_raises := false }

/-- Only the `SetWindowsHookEx` inside `_install_keyboard_hook` raises. -/
def faultsKbInstallRaises : Faults := { noFaults with kb_hook_raises := true }

/-- Only `Thread.start()` inside `_start_monitoring` raises. -/
def faultsThreadStartRaises : Faults :=
  { noFaults with start_monitoring_raises := true }

/-- `FocusManager._install_keyboard_hook`: the entire body is inside
`try/except`, so a raising `SetWindowsHookEx` is caught and logged and the
hook handle stays unset — the exception never propagates to the caller. -/
def install_keyboard_hook (f : Faults) (st : FocusManager) : FocusManager :=
  if f.kb_hook_raises then st else { st with keyboard_hook := true }

/-- `FocusManager._install_window_hook`: same swallow-all structure. -/
def install_window_hook (f : Faults) (st : FocusManager) : FocusManager :=
  if f.win_hook_raises then st else { st with window_hook := true }

/-- `FocusManager._remove_keyboard_hook`: unhooks when a handle is present;
a raising `UnhookWindowsHookEx` is caught, leaving the handle set. -/
def remove_keyboard_hook (f : Faults) (st : FocusManager) : FocusManager :=
  if st.keyboard_hook then
    (if f.kb_unhook_raises then st else { st with keyboard_hook := false })
  else st

/-- `FocusManager._remove_window_hook`. -/
def remove_window_hook (f : Faults) (st : FocusManager) : FocusManager :=
  if st.window_hook then
    (if f.win_unhook_raises then st else { st with window_hook := false })
  else st

/-- `FocusManager._stop_monitoring` (lines 376-382): a no-op when
`self.monitoring_thread` is `None`; otherwise it calls
`self.monitoring_thread.join(timeout=5)` and clears the field.  The
method has no `try/except` of its own, and `join()` on a thread whose
`start()` never succeeded raises `RuntimeError` — the returned flag is
`true` when the call raises (the field is then left set, since the
`None` assignment comes after the join). -/
def stop_monitoring_step (st : FocusManager) : FocusManager × Bool :=
  match st.monitoring_thread with
  | none => (st, false)
  | some ThreadState.started => ({ st with monitoring_thread := none }, false)
  | some ThreadState.notStarted => (st, true)

/-- `FocusManager.disable_focus_mode` (lines 121-152): the `try` body
clears the active flag, calls `_stop_monitoring`, removes both hooks
(each removal swallows its own errors), restores Windows settings and
returns `True`; if anything in the body raises — which `_stop_monitoring`
does when joining a never-started monitoring thread — the `except` branch
logs and returns `False`, so the hook removals after the raising call
never run.  No path touches `pressed_keys`. -/
def disable_focus_mode (f : Faults) (st : FocusManager) : FocusManager × Bool :=
  let st1 := { st with focus_mode_active := false }
  let r := stop_monitoring_step st1
  if r.2 then
    (r.1, false)
  else
    let st2 := remove_keyboard_hook f r.1
    let st3 := remove_window_hook f st2
    (st3, true)

/-- `FocusManager.enable_focus_mode` (lines 80-119): sets the active flag
and the allowed-window set, installs both hooks (each installer swallows
its own errors), applies Focus Assist / task-switching tweaks (registry
only, also swallowed), then calls `_start_monitoring`, which assigns
`self.monitoring_thread = threading.Thread(...)` and then calls
`.start()`.  A raising `.start()` is the only step in the `try` body
whose failure propagates — and it leaves `monitoring_thread` holding the
never-started Thread; the `except` branch then awaits
`disable_focus_mode` on that state and returns `False`. -/
def enable_focus_mode (f : Faults) (st : FocusManager)
    (allowed_window_titles : List String) : FocusManager × Bool :=
  let titles := if allowed_window_titles.isEmpty then ["FocusClass Student"]
                else allowed_window_titles
  let st1 := { st with focus_mode_active := true, allowed_windows := titles }
  let st2 := install_keyboard_hook f st1
  let st3 := install_window_hook f st2
  if f.start_monitoring_raises then
    ((disable_focus_mode f
        { st3 with monitoring_thread := some ThreadState.notStarted }).1, false)
  else
    ({ st3 with monitoring_thread := some ThreadState.started }, true)

/-- `FocusManager.is_focus_mode_active`. -/
def is_focus_mode_active (st : FocusManager) : Bool :=
  st.focus_mode_active

/-! ## Screen capture (src/src/common/screen_capture.py) -/

/-- State of a `ScreenCaptureTrack` (the fields its `recv` reads or
writes; the mss handle and logger are omitted, and the WebRTC branch —
the one the streaming path uses — is the one embedded). -/
structure CaptureTrack where
  monitor : ℕ
  fps : ℤ
  scale_factor : ℚ
  frame_count : ℕ
  last_frame_time : ℚ
  deriving DecidableEq

/-- A frame as produced by `ScreenCaptureTrack.recv`: its presentation
timestamp (`frame.pts = self.frame_count` at production time) and whether
it is the all-zero placeholder produced on a capture failure. -/
structure Frame where
  pts : ℕ
  isBlack : Bool
  deriving DecidableEq

/-- `ScreenCaptureTrack.recv` at wall-clock time `t`; `captureOk` tells
whether the `sct.grab`/encode block succeeds.  On success the captured
frame gets `pts = frame_count`, the counter advances and
`last_frame_time` is updated; on failure the `except` branch still builds
a black frame with `pts = frame_count` and advances the counter (it does
not update `last_frame_time`).  Neither branch raises. -/
def recv (tr : CaptureTrack) (t : ℚ) (captureOk : Bool) :
    CaptureTrack × Frame :=
  if captureOk then
    ({ tr with frame_count := tr.frame_count + 1, last_frame_time := t },
     { pts := tr.frame_count, isBlack := false })
  else
    ({ tr with frame_count := tr.frame_count + 1 },
     { pts := tr.frame_count, isBlack := true })

/-- A sequence of pulls on a track: each list element is the wall-clock
time of the pull and whether the capture succeeds.  Returns the final
track state and the produced frames in order. -/
def recvSeq (tr : CaptureTrack) (pulls : List (ℚ × Bool)) :
    CaptureTrack × List Frame :=
  match pulls with
  | [] => (tr, [])
  | (t, ok) :: rest =>
      let r := recv tr t ok
      let r' := recvSeq r.1 rest
      (r'.1, r.2 :: r'.2)

/-- The handle `ScreenCapture.capture_track` holds: a freshly constructed
`ScreenCaptureTrack` (WebRTC mode, tagged here with an allocation serial
so that re-allocation is observable) or the `"basic_capture"` flag used in
the fallback mode. -/
inductive TrackHandle where
  | webrtcTrack (serial : ℕ) (monitor : ℕ) (fps : ℤ) (scale_factor : ℚ)
  | basicCapture
  deriving DecidableEq

/-- State of the `ScreenCapture` manager.  `alloc_count` counts
`ScreenCaptureTrack` constructions (it is the next allocation serial);
`num_monitors` abstracts `len(self.monitors)`. -/
structure ScreenCapture where
  is_capturing : Bool
  capture_track : Option TrackHandle
  num_monitors : ℕ
  current_monitor : ℕ
  fps : ℤ
  scale_factor : ℚ
  quality : String
  alloc_count : ℕ
  deriving DecidableEq

/-- The state built by `ScreenCapture.__init__` given the detected
monitor count. -/
def initSC (num_monitors : ℕ) : ScreenCapture :=
  { is_capturing := false
    capture_track := none
    num_monitors := num_monitors
    current_monitor := 0
    fps := 15
    scale_factor := 1
    quality := "medium"
    alloc_count := 0 }

/-- `ScreenCapture.quality_presets`. -/
def quality_presets : List (String × ℤ × ℚ) :=
  [("low", 10, 1/2), ("medium", 15, 3/4), ("high", 20, 1), ("ultra", 30, 1)]

/-- `ScreenCapture.set_quality`: applies a preset by name; an unknown name
is logged and ignored. -/
def set_quality (st : ScreenCapture) (quality : String) : ScreenCapture :=
  match quality_presets.find? (fun p => p.1 == quality) with
  | some p => { st with fps := p.2.1, scale_factor := p.2.2, quality := quality }
  | none => st

/-- `ScreenCapture.set_custom_settings`: clamps fps to [1, 60] and the
scale factor to [1/10, 2], and labels the quality `"custom"`. -/
def set_custom_settings (st : ScreenCapture) (fps : ℤ) (scale_factor : ℚ) :
    ScreenCapture :=
  { st with fps := max 1 (min 60 fps)
            scale_factor := max (1/10) (min 2 scale_factor)
            quality := "custom" }

/-- `ScreenCapture.start_capture` (lines 247-287) with WebRTC
availability as a parameter: already capturing → warn and return the
existing track unchanged; unknown monitor → error and return `none`;
otherwise record the monitor, construct the track handle (a new
`ScreenCaptureTrack` in WebRTC mode, the `"basic_capture"` flag
otherwise), set the capturing flag and return the handle. -/
def start_capture (webrtc : Bool) (st : ScreenCapture) (monitor : ℕ) :
    ScreenCapture × Option TrackHandle :=
  if st.is_capturing then
    (st, st.capture_track)
  else if st.num_monitors ≤ monitor then
    (st, none)
  else
    let handle := if webrtc then
        TrackHandle.webrtcTrack st.alloc_count monitor st.fps st.scale_factor
      else TrackHandle.basicCapture
    ({ st with current_monitor := monitor
               capture_track := some handle
               is_capturing := true
               alloc_count := if webrtc then st.alloc_count + 1 else st.alloc_count },
     some handle)

/-- `ScreenCapture.stop_capture` (lines 289-297): early return when not
capturing; otherwise clear the flag and drop the track. -/
def stop_capture (st : ScreenCapture) : ScreenCapture :=
  if !st.is_capturing then st
  else { st with is_capturing := false, capture_track := none }

/-! ## Adaptive quality (screen_capture.py, class AdaptiveQuality) -/

/-- `AdaptiveQuality.quality_levels`, the ordered tier list. -/
def quality_levels : List String := ["low", "medium", "high", "ultra"]

/-- `AdaptiveQuality.adjustment_interval` (seconds). -/
def adjustment_interval : ℚ := 10

/-- State of an `AdaptiveQuality` instance together with the
`ScreenCapture` it drives. -/
structure AdaptiveQuality where
  screen_capture : ScreenCapture
  network_quality : String
  frame_loss_rate : ℚ
  latency : ℚ
  current_level_index : ℕ
  last_adjustment : ℚ
  deriving DecidableEq

/-- The state built by `AdaptiveQuality.__init__`. -/
def initAQ (sc : ScreenCapture) : AdaptiveQuality :=
  { screen_capture := sc
    network_quality := "good"
    frame_loss_rate := 0
    latency := 0
    current_level_index := 1
    last_adjustment := 0 }

/-- The quality classification inside
`AdaptiveQuality.update_network_metrics`. -/
def classify_network (latency packet_loss : ℚ) : String :=
  if latency < 50 ∧ packet_loss < 1/100 then "good"
  else if latency < 150 ∧ packet_loss < 5/100 then "fair"
  else "poor"

/-- `AdaptiveQuality._adjust_quality`: step the tier index down on
`"poor"` (floor 0), up on `"good"` (ceiling `quality_levels.length - 1`),
hold otherwise; when the tier name actually changed, push the new preset
into the capture pipeline via `set_quality`. -/
def adjust_quality (aq : AdaptiveQuality) : AdaptiveQuality :=
  let old_level := quality_levels.getD aq.current_level_index ""
  let idx :=
    if aq.network_quality = "poor" ∧ 0 < aq.current_level_index then
      aq.current_level_index - 1
    else if aq.network_quality = "good" ∧
        aq.current_level_index < quality_levels.length - 1 then
      aq.current_level_index + 1
    else aq.current_level_index
  let new_level := quality_levels.getD idx ""
  let sc := if old_level ≠ new_level then set_quality aq.screen_capture new_level
            else aq.screen_capture
  { aq with current_level_index := idx, screen_capture := sc }

/-- `AdaptiveQuality.update_network_metrics` at wall-clock time `t`:
stores the metrics, reclassifies, and — only when strictly more than
`adjustment_interval` has elapsed since the last adjustment — runs
`_adjust_quality` and stamps the adjustment time. -/
def update_network_metrics (aq : AdaptiveQuality) (t latency packet_loss : ℚ) :
    AdaptiveQuality :=
  let aq1 := { aq with latency := latency
                       frame_loss_rate := packet_loss
                       network_quality := classify_network latency packet_loss }
  if adjustment_interval < t - aq.last_adjustment then
    { adjust_quality aq1 with last_adjustment := t }
  else aq1

/-- Feed `n` good samples (`latency=20, loss=0`), each 11 seconds after
the previous adjustment stamp, so each sample clears the rate limit. -/
def feedGood (aq : AdaptiveQuality) : ℕ → AdaptiveQuality
  | 0 => aq
  | n + 1 => feedGood (update_network_metrics aq (aq.last_adjustment + 11) 20 0) n

/-- Feed `n` poor samples (`latency=300, loss=1/5`), each 11 seconds after
the previous adjustment stamp. -/
def feedPoor (aq : AdaptiveQuality) : ℕ → AdaptiveQuality
  | 0 => aq
  | n + 1 => feedPoor (update_network_metrics aq (aq.last_adjustment + 11) 300 (1/5)) n

/-! ## Teacher application (src/src/teacher/teacher_app.py)

`TeacherMainWindow` defines `handle_student_authentication` twice (lines
303 and 2121) and `_toggle_focus_mode_async` twice (lines 1568 and 1896),
all four inside the same class body; by Python semantics the later
definition of each name is the one bound on the class, so lines 2121 and
1896 are the methods that actually run.  Both generations are embedded
below, the shadowed ones under a `_shadowed` suffix. -/

/-- The per-student record stored in `self.connected_students[client_id]`
by the effective authentication handler (line 2121; database id, raw
timestamps and free-form fields are omitted). -/
structure StudentRecord where
  name : String
  status : String
  violations : ℕ
  keystroke_count : ℕ
  battery_level : ℕ
  is_charging : Bool
  focus_active : Bool
  deriving DecidableEq

/-- Teacher-side session state touched by authentication and the
focus-mode toggle.  `connected_students` is the dict keyed by client id,
as an association list. -/
structure TeacherState where
  session_code : String
  session_password : String
  connected_students : List (String × StudentRecord)
  focus_mode_active : Bool
  keystroke_monitoring : Bool
  charging_monitoring : Bool
  deriving DecidableEq

/-- Dict update `d[k] = v` on an association list. -/
def dictSet (d : List (String × StudentRecord)) (k : String)
    (v : StudentRecord) : List (String × StudentRecord) :=
  match d with
  | [] => [(k, v)]
  | (k', v') :: rest =>
      if k' == k then (k, v) :: rest else (k', v') :: dictSet rest k v

/-- Dict lookup on an association list. -/
def dictGet (d : List (String × StudentRecord)) (k : String) :
    Option StudentRecord :=
  match d with
  | [] => none
  | (k', v') :: rest => if k' == k then some v' else dictGet rest k

/-- The response `handle_student_authentication` sends to the client. -/
inductive AuthResponse where
  | authSuccess (student_id : String) (focus_mode keystroke_monitoring battery_monitoring : Bool)
  | authFailed (reason : String)
  deriving DecidableEq

/-- The effective `handle_student_authentication` (teacher_app.py line
2121).  The handler reads `student_name`, `password` and `session_code`
from the message, but — per its own `TODO: Verify session and password …
For now, accept all connections` — never compares them with the session's
credentials: it unconditionally registers the client (violations 0,
focus flag false) and replies `auth_success`. -/
def handle_student_authentication (st : TeacherState) (client_id : String)
    (student_name _password _session_code : String) :
    TeacherState × AuthResponse :=
  let record : StudentRecord :=
    { name := student_name
      status := "connected"
      violations := 0
      keystroke_count := 0
      battery_level := 100
      is_charging := true
      focus_active := false }
  ({ st with connected_students := dictSet st.connected_students client_id record },
   .authSuccess client_id st.focus_mode_active st.keystroke_monitoring
     st.charging_monitoring)

/-- A message broadcast to every connected client:
`broadcast_message(type, payload)` with a boolean payload field. -/
structure BroadcastMsg where
  msgType : String
  enabled : Bool
  deriving DecidableEq

/-- The effective `_toggle_focus_mode_async` (teacher_app.py line 1896):
broadcasts `focus_mode {enabled}` and sets `self.focus_mode_active`; it
does not touch `connected_students`. -/
def toggle_focus_mode (st : TeacherState) (enabled : Bool) :
    TeacherState × BroadcastMsg :=
  ({ st with focus_mode_active := enabled },
   { msgType := "focus_mode", enabled := enabled })

/-- The shadowed `_toggle_focus_mode_async` (teacher_app.py line 1568,
dead code): additionally sets the focus flag of every connected student
record before setting `self.focus_mode_active`. -/
def toggle_focus_mode_shadowed (st : TeacherState) (enabled : Bool) :
    TeacherState × BroadcastMsg :=
  ({ st with
      focus_mode_active := enabled
      connected_students :=
        st.connected_students.map fun p => (p.1, { p.2 with focus_active := enabled }) },
   { msgType := "focus_mode", enabled := enabled })

/-- A concrete session as `startSession` would set it up: generated code
and password, no students yet, focus mode off, monitoring on. -/
def demoTeacher : TeacherState :=
  { session_code := "ABCD1234"
    session_password := "p@ss"
    connected_students := []
    focus_mode_active := false
    keystroke_monitoring := true
    charging_monitoring := true }

/-- The student record the effective authentication handler creates for a
student named Alice. -/
def demoStudent : StudentRecord :=
  { name := "Alice"
    status := "connected"
    violations := 0
    keystroke_count := 0
    battery_level := 100
    is_charging := true
    focus_active := false }

/-- The demo session with one connected student. -/
def demoTeacherWithStudent : TeacherState :=
  { demoTeacher with connected_students := [("client-1", demoStudent)] }

/-! ## Helper lemmas about the focus manager -/

theorem log_violation_pressed (st : FocusManager) (t : ℚ) :
    (log_violation st t).1.pressed_keys = st.pressed_keys := by
  unfold log_violation; split <;> rfl

theorem log_violation_active (st : FocusManager) (t : ℚ) :
    (log_violation st t).1.focus_mode_active = st.focus_mode_active := by
  unfold log_violation; split <;> rfl

theorem keyboard_hook_proc_pressed (st : FocusManager) (t : ℚ) (e : KeyEvent) :
    (keyboard_hook_proc st t e).1.pressed_keys = applyKey st.pressed_keys e := by
  cases e with
  | down vk =>
      simp only [keyboard_hook_proc, applyKey]
      split
      · exact log_violation_pressed _ _
      · rfl
  | up vk => rfl

theorem keyboard_hook_proc_active (st : FocusManager) (t : ℚ) (e : KeyEvent) :
    (keyboard_hook_proc st t e).1.focus_mode_active = st.focus_mode_active := by
  cases e with
  | down vk =>
      simp only [keyboard_hook_proc]
      split
      · exact log_violation_active _ _
      · rfl
  | up vk => rfl

theorem processKeyEvents_pressed (evs : List (ℚ × KeyEvent)) (st : FocusManager) :
    (processKeyEvents st evs).1.pressed_keys =
      evs.foldl (fun s p => applyKey s p.2) st.pressed_keys := by
  induction evs generalizing st with
  | nil => rfl
  | cons p rest ih =>
      obtain ⟨t, e⟩ := p
      simp only [processKeyEvents, List.foldl_cons]
      rw [ih, keyboard_hook_proc_pressed]

theorem remove_keyboard_hook_pressed (f : Faults) (st : FocusManager) :
    (remove_keyboard_hook f st).pressed_keys = st.pressed_keys := by
  unfold remove_keyboard_hook; split_ifs <;> rfl

theorem remove_window_hook_pressed (f : Faults) (st : FocusManager) :
    (remove_window_hook f st).pressed_keys = st.pressed_keys := by
  unfold remove_window_hook; split_ifs <;> rfl

theorem remove_keyboard_hook_spec (f : Faults) (st : FocusManager) :
    (remove_keyboard_hook f st).focus_mode_active = st.focus_mode_active ∧
    (remove_keyboard_hook f st).monitoring_thread = st.monitoring_thread ∧
    (remove_keyboard_hook f st).window_hook = st.window_hook ∧
    (f.kb_unhook_raises = false → (remove_keyboard_hook f st).keyboard_hook = false) := by
  unfold remove_keyboard_hook
  split_ifs <;> simp_all

theorem remove_window_hook_spec (f : Faults) (st : FocusManager) :
    (remove_window_hook f st).focus_mode_active = st.focus_mode_active ∧
    (remove_window_hook f st).monitoring_thread = st.monitoring_thread ∧
    (remove_window_hook f st).keyboard_hook = st.keyboard_hook ∧
    (f.win_unhook_raises = false → (remove_window_hook f st).window_hook = false) := by
  unfold remove_window_hook
  split_ifs <;> simp_all

theorem stop_monitoring_step_fields (st : FocusManager) :
    (stop_monitoring_step st).1.focus_mode_active = st.focus_mode_active ∧
    (stop_monitoring_step st).1.pressed_keys = st.pressed_keys ∧
    (stop_monitoring_step st).1.keyboard_hook = st.keyboard_hook ∧
    (stop_monitoring_step st).1.window_hook = st.window_hook := by
  unfold stop_monitoring_step
  rcases h : st.monitoring_thread with _ | ts
  · exact ⟨rfl, rfl, rfl, rfl⟩
  · cases ts <;> exact ⟨rfl, rfl, rfl, rfl⟩

/-- What every path of `disable_focus_mode` guarantees: the active flag is
cleared (it is the first statement of the `try` body, before anything can
raise) and `pressed_keys` is untouched.  Nothing more: when the
monitoring-thread join raises, the hook removals are skipped. -/
theorem disable_focus_mode_spec (f : Faults) (st : FocusManager) :
    (disable_focus_mode f st).1.focus_mode_active = false ∧
    (disable_focus_mode f st).1.pressed_keys = st.pressed_keys := by
  simp only [disable_focus_mode]
  have hs := stop_monitoring_step_fields { st with focus_mode_active := false }
  have hk := remove_keyboard_hook_spec f
    (stop_monitoring_step { st with focus_mode_active := false }).1
  have hw := remove_window_hook_spec f
    (remove_keyboard_hook f (stop_monitoring_step { st with focus_mode_active := false }).1)
  split_ifs with h
  · exact ⟨hs.1, hs.2.1⟩
  · constructor
    · rw [hw.1, hk.1, hs.1]
    · rw [remove_window_hook_pressed, remove_keyboard_hook_pressed, hs.2.1]

theorem enable_focus_mode_pressed (f : Faults) (st : FocusManager)
    (titles : List String) :
    (enable_focus_mode f st titles).1.pressed_keys = st.pressed_keys := by
  simp only [enable_focus_mode, install_keyboard_hook, install_window_hook]
  split_ifs <;> rfl

/-! ## Claim C2 -/

/-- C2 (counterexample to the claim as stated): starting from a fresh
manager, enabling focus mode, delivering a single key-down (Tab) with no
matching key-up, then disabling, leaves `pressed_keys` nonempty — the
claim asserts it is always empty after `enable` then `disable`. -/
theorem C2_counterexample :
    ((disable_focus_mode noFaults
        (processKeyEvents
          ((enable_focus_mode noFaults initFM ["FocusClass Student"]).1)
          [(0, KeyEvent.down 9)]).1).1).pressed_keys ≠ (∅ : Finset ℕ) := by
  decide

/-- C2 (amended): `enable_focus_mode` followed by any sequence of key
events and then `disable_focus_mode` always leaves
`is_focus_mode_active() = false`; `pressed_keys` is not cleared by either
call — it ends as exactly the set the key events produce (insert on
key-down, erase on key-up, starting from the empty set), so it is empty
precisely when every pressed key was released. -/
theorem C2_enable_then_disable (evs : List (ℚ × KeyEvent)) :
    is_focus_mode_active
        (disable_focus_mode noFaults
          (processKeyEvents
            ((enable_focus_mode noFaults initFM ["FocusClass Student"]).1) evs).1).1
      = false ∧
    ((disable_focus_mode noFaults
        (processKeyEvents
          ((enable_focus_mode noFaults initFM ["FocusClass Student"]).1) evs).1).1).pressed_keys
      = evs.foldl (fun s p => applyKey s p.2) ∅ := by
  refine ⟨(disable_focus_mode_spec _ _).1, ?_⟩
  rw [(disable_focus_mode_spec _ _).2, processKeyEvents_pressed,
    enable_focus_mode_pressed]
  rfl

/-! ## Claim C3 -/

/-- C3 (counterexample to the claim as stated): with focus mode enabled,
pressing the OS key and then Tab (pressed set `{VK_LWIN, VK_TAB}`) fires
no violation at all — `{OS-key, Tab}` is not a row of the code's
restricted-chord table (`win_key` is `[VK_LWIN, VK_RWIN]` and the
task-switch row is `[VK_MENU, VK_TAB]`), whereas the claim says the Tab
press triggers exactly one violation. -/
theorem C3_counterexample :
    (processKeyEvents
        ((enable_focus_mode noFaults initFM ["FocusClass Student"]).1)
        [(2, KeyEvent.down VK_LWIN), (3, KeyEvent.down VK_TAB)]).2 = 0 ∧
    check_restricted_keys {VK_LWIN, VK_TAB} = false := by
  constructor <;> decide

/-- C3 (amended): with the engine armed, a pressed set containing only the
OS key produces no violation; a chord matches exactly when every key of
some row of `restricted_keys` is currently pressed; each key-down runs the
chord check exactly once on the post-press set (so a full restricted chord
such as `{Alt, Tab}` fires exactly one violation check per distinct press
event, never on key-up and never per polling tick); `{OS-key, Tab}` is not
a restricted chord — the OS-key row requires both Windows keys. -/
theorem C3_restricted_chords :
    (∀ (st : FocusManager) (t : ℚ) (vk : ℕ),
      (keyboard_hook_proc st t (KeyEvent.down vk)).2 =
        check_restricted_keys (insert vk st.pressed_keys)) ∧
    (∀ (st : FocusManager) (t : ℚ) (vk : ℕ),
      (keyboard_hook_proc st t (KeyEvent.up vk)).2 = false) ∧
    (∀ pressed : Finset ℕ,
      check_restricted_keys pressed = true ↔
        ∃ combo ∈ restricted_keys, ∀ key ∈ combo.2, key ∈ pressed) ∧
    check_restricted_keys {VK_LWIN} = false ∧
    check_restricted_keys {VK_MENU, VK_TAB} = true ∧
    (processKeyEvents
        ((enable_focus_mode noFaults initFM ["FocusClass Student"]).1)
        [(2, KeyEvent.down VK_MENU), (3, KeyEvent.down VK_TAB)]).2 = 1 := by
  refine ⟨?_, ?_, ?_, by decide, by decide, by decide⟩
  · intro st t vk
    simp only [keyboard_hook_proc]
    split <;> simp_all
  · intro st t vk
    rfl
  · intro pressed
    simp [check_restricted_keys, List.any_eq_true, List.all_eq_true]

/-! ## Claim C5 -/

/-- C5: `_log_violation` suppresses a violation strictly less than one
second after the previously emitted one (state unchanged, nothing
emitted), and emits one second or more after it (count up by exactly one,
emission timestamp recorded). -/
theorem C5_violation_rate_limit (st : FocusManager) (t : ℚ) :
    (t - st.last_violation_time < 1 → log_violation st t = (st, false)) ∧
    (1 ≤ t - st.last_violation_time →
      log_violation st t =
        ({ st with last_violation_time := t,
                   violation_count := st.violation_count + 1 }, true)) := by
  constructor
  · intro h
    unfold log_violation
    rw [if_pos h]
  · intro h
    unfold log_violation
    rw [if_neg (not_lt.mpr h)]

/-- Witness for C5: from a fresh manager (last emission stamp 0), a
violation at t = 1/2 is suppressed and one at t = 2 is emitted with the
count going from 0 to 1. -/
theorem C5_violation_rate_limit_witness :
    ((1 : ℚ)/2 - initFM.last_violation_time < 1 ∧
      log_violation initFM (1/2) = (initFM, false)) ∧
    (1 ≤ (2 : ℚ) - initFM.last_violation_time ∧
      log_violation initFM 2 =
        ({ initFM with last_violation_time := 2,
                       violation_count := initFM.violation_count + 1 }, true)) :=
  ⟨⟨by norm_num [initFM], (C5_violation_rate_limit initFM (1/2)).1 (by norm_num [initFM])⟩,
   ⟨by norm_num [initFM], (C5_violation_rate_limit initFM 2).2 (by norm_num [initFM])⟩⟩

/-! ## Claim C6 -/

/-- C6 (evaluation of the code at the claim's failing inputs).
(i) An exception thrown by `SetWindowsHookEx` inside
`_install_keyboard_hook` is caught and logged there, so
`enable_focus_mode` does not return failure: it returns `True` with focus
mode marked active and the keyboard hook not installed.
(ii) When `enable_focus_mode` does fail — both hooks installed, then
`Thread.start()` raising in `_start_monitoring` — the `except` branch
calls `disable_focus_mode`, but that cleanup raises `RuntimeError` at
`_stop_monitoring`'s `join()` on the never-started monitoring thread and
returns `False` before either unhook runs: both hooks remain installed
after the failed enable, where the claim requires that none remain.
(iii) The same cleanup failure on `disable_focus_mode` in isolation: on a
state whose monitoring thread never started, it returns `False` and
leaves both hooks installed even though no unhook call raises. -/
theorem C6_failed_enable_leaks_hooks :
    ((enable_focus_mode faultsKbInstallRaises initFM []).2 = true ∧
      is_focus_mode_active
        (enable_focus_mode faultsKbInstallRaises initFM []).1 = true ∧
      (enable_focus_mode faultsKbInstallRaises initFM []).1.keyboard_hook = false) ∧
    ((enable_focus_mode faultsThreadStartRaises initFM []).2 = false ∧
      is_focus_mode_active
        (enable_focus_mode faultsThreadStartRaises initFM []).1 = false ∧
      (enable_focus_mode faultsThreadStartRaises initFM []).1.keyboard_hook = true ∧
      (enable_focus_mode faultsThreadStartRaises initFM []).1.window_hook = true) ∧
    ((disable_focus_mode noFaults
        { initFM with keyboard_hook := true, window_hook := true,
                      monitoring_thread := some ThreadState.notStarted }).2 = false ∧
      (disable_focus_mode noFaults
        { initFM with keyboard_hook := true, window_hook := true,
                      monitoring_thread := some ThreadState.notStarted }).1.keyboard_hook = true ∧
      (disable_focus_mode noFaults
        { initFM with keyboard_hook := true, window_hook := true,
                      monitoring_thread := some ThreadState.notStarted }).1.window_hook = true) := by
  exact ⟨⟨by decide, by decide, by decide⟩,
    ⟨by decide, by decide, by decide, by decide⟩,
    ⟨by decide, by decide, by decide⟩⟩

/-! ## Claim C7 -/

/-- The frame identifiers produced by a run of pulls start at the track's
current counter and go up by exactly one per pull, whatever mix of
successes and failures the captures had; the counter ends advanced by the
number of pulls. -/
theorem recvSeq_pts (pulls : List (ℚ × Bool)) (tr : CaptureTrack) :
    ((recvSeq tr pulls).2.map Frame.pts) = List.range' tr.frame_count pulls.length ∧
    (recvSeq tr pulls).1.frame_count = tr.frame_count + pulls.length := by
  induction pulls generalizing tr with
  | nil => exact ⟨rfl, rfl⟩
  | cons p rest ih =>
      obtain ⟨t, ok⟩ := p
      have hcount : (recv tr t ok).1.frame_count = tr.frame_count + 1 := by
        unfold recv; split <;> rfl
      have hpts : (recv tr t ok).2.pts = tr.frame_count := by
        unfold recv; split <;> rfl
      constructor
      · simp only [recvSeq, List.map_cons, List.length_cons, List.range'_succ]
        rw [hpts, (ih _).1, hcount]
      · simp only [recvSeq, List.length_cons]
        rw [(ih _).2, hcount]
        omega

/-- C7: `recv` never raises — both the success and the failure branch
return a frame.  Every pull, failed or not, advances the frame counter by
exactly one and stamps the frame with the pre-pull counter; a failed pull
returns the black placeholder frame; over any sequence of pulls the frame
identifiers are the consecutive range starting at the initial counter —
continuous, strictly increasing, no reuse. -/
theorem C7_capture_failure_continuity :
    (∀ (tr : CaptureTrack) (t : ℚ) (ok : Bool),
      (recv tr t ok).1.frame_count = tr.frame_count + 1 ∧
      (recv tr t ok).2.pts = tr.frame_count) ∧
    (∀ (tr : CaptureTrack) (t : ℚ), (recv tr t false).2.isBlack = true) ∧
    (∀ (tr : CaptureTrack) (pulls : List (ℚ × Bool)),
      ((recvSeq tr pulls).2.map Frame.pts) = List.range' tr.frame_count pulls.length) ∧
    (∀ (tr : CaptureTrack) (pulls : List (ℚ × Bool)),
      ((recvSeq tr pulls).2.map Frame.pts).Pairwise (· < ·)) := by
  refine ⟨fun tr t ok => ⟨?_, ?_⟩, fun tr t => rfl,
    fun tr pulls => (recvSeq_pts pulls tr).1, fun tr pulls => ?_⟩
  · unfold recv; split <;> rfl
  · unfold recv; split <;> rfl
  · rw [(recvSeq_pts pulls tr).1]
    exact List.pairwise_lt_range' _ _

/-! ## Claim C8 -/

/-- C8: `start_capture` while already capturing returns the state and the
existing track completely unchanged (in particular no new allocation —
`alloc_count` is part of the state equality); `stop_capture` on an
inactive pipeline is the identity. -/
theorem C8_start_stop_idempotence :
    (∀ (webrtc : Bool) (st : ScreenCapture) (monitor : ℕ),
      st.is_capturing = true →
        start_capture webrtc st monitor = (st, st.capture_track)) ∧
    (∀ st : ScreenCapture, st.is_capturing = false → stop_capture st = st) := by
  constructor
  · intro w st m h
    unfold start_capture
    rw [if_pos h]
  · intro st h
    unfold stop_capture
    rw [if_pos (by simp [h])]

/-- Witness for C8: after a first `start_capture` the pipeline is
capturing, a second `start_capture` returns the same state and handle,
and `stop_capture` on the fresh (inactive) pipeline changes nothing. -/
theorem C8_start_stop_idempotence_witness :
    ((start_capture true (initSC 1) 0).1.is_capturing = true ∧
      start_capture true (start_capture true (initSC 1) 0).1 0 =
        ((start_capture true (initSC 1) 0).1,
         (start_capture true (initSC 1) 0).1.capture_track)) ∧
    ((initSC 1).is_capturing = false ∧ stop_capture (initSC 1) = initSC 1) :=
  ⟨⟨rfl, C8_start_stop_idempotence.1 true (start_capture true (initSC 1) 0).1 0 rfl⟩,
   ⟨rfl, C8_start_stop_idempotence.2 (initSC 1) rfl⟩⟩

/-! ## Claim C10 -/

/-- C10: after `set_custom_settings(fps, scale_factor)` the stored fps is
in [1, 60] and the scale factor in [1/10, 2]; out-of-range arguments are
clamped to the nearest bound and in-range arguments are kept; the quality
label becomes `"custom"`. -/
theorem C10_custom_settings_clamped (st : ScreenCapture) (fps : ℤ)
    (scale_factor : ℚ) :
    1 ≤ (set_custom_settings st fps scale_factor).fps ∧
    (set_custom_settings st fps scale_factor).fps ≤ 60 ∧
    1/10 ≤ (set_custom_settings st fps scale_factor).scale_factor ∧
    (set_custom_settings st fps scale_factor).scale_factor ≤ 2 ∧
    (set_custom_settings st fps scale_factor).quality = "custom" ∧
    (set_custom_settings st fps scale_factor).fps =
      (if fps < 1 then 1 else if fps ≤ 60 then fps else 60) ∧
    (set_custom_settings st fps scale_factor).scale_factor =
      (if scale_factor < 1/10 then 1/10
       else if scale_factor ≤ 2 then scale_factor else 2) := by
  simp only [set_custom_settings]
  refine ⟨le_max_left _ _, max_le (by norm_num) (min_le_left _ _),
    le_max_left _ _, max_le (by norm_num) (min_le_left _ _), trivial, ?_, ?_⟩
  · split_ifs <;> omega
  · split_ifs with h1 h2
    · rw [min_eq_right (by linarith), max_eq_left (by linarith)]
    · rw [min_eq_right h2, max_eq_right (not_lt.mp h1)]
    · rw [min_eq_left (by linarith [not_le.mp h2]), max_eq_right (by norm_num)]

/-! ## Claim C4: helper lemmas -/

theorem classify_network_good (lat loss : ℚ) :
    classify_network lat loss = "good" ↔ lat < 50 ∧ loss < 1/100 := by
  unfold classify_network
  split_ifs with h1 h2 <;> simp_all

theorem classify_network_fair (lat loss : ℚ) :
    classify_network lat loss = "fair" ↔
      ¬(lat < 50 ∧ loss < 1/100) ∧ lat < 150 ∧ loss < 5/100 := by
  unfold classify_network
  split_ifs with h1 h2 <;> simp_all

theorem classify_network_poor (lat loss : ℚ) :
    classify_network lat loss = "poor" ↔
      ¬(lat < 50 ∧ loss < 1/100) ∧ ¬(lat < 150 ∧ loss < 5/100) := by
  unfold classify_network
  split_ifs with h1 h2 <;> simp_all

/-- `_adjust_quality` changes only the tier index and the capture
pipeline. -/
theorem adjust_quality_preserves (aq : AdaptiveQuality) :
    (adjust_quality aq).network_quality = aq.network_quality ∧
    (adjust_quality aq).latency = aq.latency ∧
    (adjust_quality aq).frame_loss_rate = aq.frame_loss_rate ∧
    (adjust_quality aq).last_adjustment = aq.last_adjustment :=
  ⟨rfl, rfl, rfl, rfl⟩

/-- The tier index produced by `_adjust_quality`, in closed form
(`quality_levels.length - 1 = 3`). -/
theorem adjust_quality_index (aq : AdaptiveQuality) :
    (adjust_quality aq).current_level_index =
      (if aq.network_quality = "poor" ∧ 0 < aq.current_level_index then
        aq.current_level_index - 1
      else if aq.network_quality = "good" ∧ aq.current_level_index < 3 then
        aq.current_level_index + 1
      else aq.current_level_index) := rfl

theorem adjust_quality_index_le (aq : AdaptiveQuality)
    (h3 : aq.current_level_index ≤ 3) :
    (adjust_quality aq).current_level_index ≤ 3 := by
  rw [adjust_quality_index]
  split_ifs <;> omega

/-- Distinct in-range tier indices name distinct tiers. -/
theorem quality_levels_getD_ne (i j : ℕ) (hi : i ≤ 3) (hj : j ≤ 3) (hij : i ≠ j) :
    quality_levels.getD i "" ≠ quality_levels.getD j "" := by
  interval_cases i <;> interval_cases j <;>
    first
      | exact absurd rfl hij
      | decide

/-- When `_adjust_quality` actually moves the index (starting in range),
it pushes the new tier into the capture pipeline via `set_quality`. -/
theorem adjust_quality_capture (aq : AdaptiveQuality)
    (h3 : aq.current_level_index ≤ 3)
    (hch : (adjust_quality aq).current_level_index ≠ aq.current_level_index) :
    (adjust_quality aq).screen_capture =
      set_quality aq.screen_capture
        (quality_levels.getD (adjust_quality aq).current_level_index "") := by
  have hle := adjust_quality_index_le aq h3
  have hne := quality_levels_getD_ne aq.current_level_index
    (adjust_quality aq).current_level_index h3 hle (Ne.symm hch)
  show (if quality_levels.getD aq.current_level_index "" ≠
          quality_levels.getD (adjust_quality aq).current_level_index "" then
        set_quality aq.screen_capture
          (quality_levels.getD (adjust_quality aq).current_level_index "")
      else aq.screen_capture) = _
  rw [if_pos hne]

/-- `update_network_metrics` always installs the computed classification
and the raw metrics. -/
theorem update_network_metrics_fields (aq : AdaptiveQuality) (t lat loss : ℚ) :
    (update_network_metrics aq t lat loss).network_quality =
      classify_network lat loss ∧
    (update_network_metrics aq t lat loss).latency = lat ∧
    (update_network_metrics aq t lat loss).frame_loss_rate = loss := by
  simp only [update_network_metrics]
  split_ifs with h
  · exact ⟨(adjust_quality_preserves _).1, (adjust_quality_preserves _).2.1,
      (adjust_quality_preserves _).2.2.1⟩
  · exact ⟨rfl, rfl, rfl⟩

/-- Within the adjustment interval neither the tier index nor the capture
pipeline changes, whatever the classification. -/
theorem update_network_metrics_rate_limited (aq : AdaptiveQuality)
    (t lat loss : ℚ) (h : t - aq.last_adjustment ≤ adjustment_interval) :
    (update_network_metrics aq t lat loss).current_level_index =
      aq.current_level_index ∧
    (update_network_metrics aq t lat loss).screen_capture = aq.screen_capture := by
  simp only [update_network_metrics]
  rw [if_neg (not_lt.mpr h)]
  exact ⟨rfl, rfl⟩

/-- Past the adjustment interval the tier index moves exactly one step:
down on poor (floored at 0), up on good (capped at 3), unchanged
otherwise. -/
theorem update_network_metrics_step (aq : AdaptiveQuality) (t lat loss : ℚ)
    (h : adjustment_interval < t - aq.last_adjustment) :
    (update_network_metrics aq t lat loss).current_level_index =
      (if classify_network lat loss = "poor" ∧ 0 < aq.current_level_index then
        aq.current_level_index - 1
      else if classify_network lat loss = "good" ∧ aq.current_level_index < 3 then
        aq.current_level_index + 1
      else aq.current_level_index) := by
  simp only [update_network_metrics]
  rw [if_pos h]
  exact adjust_quality_index _

/-- Past the adjustment interval, an actual tier change pushes the new
tier's preset into the capture pipeline. -/
theorem update_network_metrics_push (aq : AdaptiveQuality) (t lat loss : ℚ)
    (h : adjustment_interval < t - aq.last_adjustment)
    (h3 : aq.current_level_index ≤ 3)
    (hch : (update_network_metrics aq t lat loss).current_level_index ≠
      aq.current_level_index) :
    (update_network_metrics aq t lat loss).screen_capture =
      set_quality aq.screen_capture
        (quality_levels.getD
          (update_network_metrics aq t lat loss).current_level_index "") := by
  simp only [update_network_metrics] at hch ⊢
  rw [if_pos h] at hch ⊢
  exact adjust_quality_capture _ h3 hch

theorem update_network_metrics_last (aq : AdaptiveQuality) (t lat loss : ℚ)
    (h : adjustment_interval < t - aq.last_adjustment) :
    (update_network_metrics aq t lat loss).last_adjustment = t := by
  simp only [update_network_metrics]
  rw [if_pos h]

/-- Repeated good samples spaced past the interval drive the index up by
one per sample until it saturates at 3 (ultra). -/
theorem feedGood_index (n : ℕ) : ∀ aq : AdaptiveQuality,
    aq.current_level_index ≤ 3 →
    (feedGood aq n).current_level_index = min (aq.current_level_index + n) 3 := by
  induction n with
  | zero =>
      intro aq h
      simp only [feedGood, Nat.add_zero]
      exact (min_eq_left h).symm
  | succ n ih =>
      intro aq h
      have hint : adjustment_interval <
          (aq.last_adjustment + 11) - aq.last_adjustment := by
        unfold adjustment_interval; linarith
      have hcl : classify_network 20 0 = "good" := by
        unfold classify_network; norm_num
      have hidx : (update_network_metrics aq (aq.last_adjustment + 11) 20 0).current_level_index =
          (if aq.current_level_index < 3 then aq.current_level_index + 1
           else aq.current_level_index) := by
        rw [update_network_metrics_step aq _ 20 0 hint, hcl]
        simp
      have h3' : (update_network_metrics aq (aq.last_adjustment + 11) 20 0).current_level_index ≤ 3 := by
        rw [hidx]; split_ifs <;> omega
      rw [feedGood, ih _ h3', hidx]
      split_ifs <;> omega

/-- Repeated poor samples spaced past the interval drive the index down by
one per sample until it floors at 0 (low). -/
theorem feedPoor_index (n : ℕ) : ∀ aq : AdaptiveQuality,
    (feedPoor aq n).current_level_index = aq.current_level_index - n := by
  induction n with
  | zero => intro aq; simp [feedPoor]
  | succ n ih =>
      intro aq
      have hint : adjustment_interval <
          (aq.last_adjustment + 11) - aq.last_adjustment := by
        unfold adjustment_interval; linarith
      have hcl : classify_network 300 (1/5) = "poor" := by
        unfold classify_network; norm_num
      have hidx : (update_network_metrics aq (aq.last_adjustment + 11) 300 (1/5)).current_level_index =
          aq.current_level_index - 1 := by
        rw [update_network_metrics_step aq _ 300 (1/5) hint, hcl]
        simp
        omega
      rw [feedPoor, ih, hidx]
      omega

/-! ## Claim C4 -/

/-- C4: `update_network_metrics` classifies quality as good iff
latency < 50 and loss < 1/100, fair iff not good and latency < 150 and
loss < 5/100, poor otherwise; within the 10-second adjustment interval
the tier and the pipeline are untouched; past it the tier index in the
ordered list [low, medium, high, ultra] moves by exactly one step — down
on poor (floor 0), up on good (cap 3), unchanged on fair — and on an
actual change the new tier's {fps, scale} preset is pushed into the
pipeline; repeated good samples past the interval drive the index
monotonically up to saturation at ultra and repeated poor samples down to
low. -/
theorem C4_adaptive_quality_controller :
    (∀ lat loss : ℚ,
      (classify_network lat loss = "good" ↔ lat < 50 ∧ loss < 1/100) ∧
      (classify_network lat loss = "fair" ↔
        ¬(lat < 50 ∧ loss < 1/100) ∧ lat < 150 ∧ loss < 5/100) ∧
      (classify_network lat loss = "poor" ↔
        ¬(lat < 50 ∧ loss < 1/100) ∧ ¬(lat < 150 ∧ loss < 5/100))) ∧
    (∀ (aq : AdaptiveQuality) (t lat loss : ℚ),
      (update_network_metrics aq t lat loss).network_quality =
        classify_network lat loss) ∧
    (∀ (aq : AdaptiveQuality) (t lat loss : ℚ),
      t - aq.last_adjustment ≤ adjustment_interval →
      (update_network_metrics aq t lat loss).current_level_index =
        aq.current_level_index ∧
      (update_network_metrics aq t lat loss).screen_capture =
        aq.screen_capture) ∧
    (∀ (aq : AdaptiveQuality) (t lat loss : ℚ),
      adjustment_interval < t - aq.last_adjustment →
      (update_network_metrics aq t lat loss).current_level_index =
        (if classify_network lat loss = "poor" ∧ 0 < aq.current_level_index then
          aq.current_level_index - 1
        else if classify_network lat loss = "good" ∧
            aq.current_level_index < 3 then
          aq.current_level_index + 1
        else aq.current_level_index)) ∧
    (∀ (aq : AdaptiveQuality) (t lat loss : ℚ),
      adjustment_interval < t - aq.last_adjustment →
      aq.current_level_index ≤ 3 →
      (update_network_metrics aq t lat loss).current_level_index ≠
        aq.current_level_index →
      (update_network_metrics aq t lat loss).screen_capture =
        set_quality aq.screen_capture
          (quality_levels.getD
            (update_network_metrics aq t lat loss).current_level_index "")) ∧
    (∀ sc : ScreenCapture,
      ((set_quality sc "low").fps = 10 ∧ (set_quality sc "low").scale_factor = 1/2) ∧
      ((set_quality sc "medium").fps = 15 ∧ (set_quality sc "medium").scale_factor = 3/4) ∧
      ((set_quality sc "high").fps = 20 ∧ (set_quality sc "high").scale_factor = 1) ∧
      ((set_quality sc "ultra").fps = 30 ∧ (set_quality sc "ultra").scale_factor = 1)) ∧
    (∀ (aq : AdaptiveQuality) (n : ℕ), aq.current_level_index ≤ 3 →
      (feedGood aq n).current_level_index = min (aq.current_level_index + n) 3) ∧
    (∀ (aq : AdaptiveQuality) (n : ℕ),
      (feedPoor aq n).current_level_index = aq.current_level_index - n) :=
  ⟨fun lat loss => ⟨classify_network_good lat loss, classify_network_fair lat loss,
      classify_network_poor lat loss⟩,
   fun aq t lat loss => (update_network_metrics_fields aq t lat loss).1,
   fun aq t lat loss h => update_network_metrics_rate_limited aq t lat loss h,
   fun aq t lat loss h => update_network_metrics_step aq t lat loss h,
   fun aq t lat loss h h3 hch => update_network_metrics_push aq t lat loss h h3 hch,
   fun _ => ⟨⟨rfl, rfl⟩, ⟨rfl, rfl⟩, ⟨rfl, rfl⟩, ⟨rfl, rfl⟩⟩,
   fun aq n h => feedGood_index n aq h,
   fun aq n => feedPoor_index n aq⟩

/-- Witness for C4: from a fresh controller (index 1 = medium, last
adjustment 0) a poor sample at t = 5 is inside the interval and changes
nothing; a poor sample at t = 12 steps the index down to 0 and pushes the
low preset; five spaced good samples saturate the index at 3 and three
spaced poor samples floor it at 0. -/
theorem C4_adaptive_quality_controller_witness :
    ((5 : ℚ) - (initAQ (initSC 1)).last_adjustment ≤ adjustment_interval ∧
      (update_network_metrics (initAQ (initSC 1)) 5 300 (1/5)).current_level_index = 1) ∧
    (adjustment_interval < (12 : ℚ) - (initAQ (initSC 1)).last_adjustment ∧
      (update_network_metrics (initAQ (initSC 1)) 12 300 (1/5)).current_level_index = 0) ∧
    ((initAQ (initSC 1)).current_level_index ≤ 3 ∧
      (update_network_metrics (initAQ (initSC 1)) 12 300 (1/5)).screen_capture =
        set_quality (initAQ (initSC 1)).screen_capture
          (quality_levels.getD
            (update_network_metrics (initAQ (initSC 1)) 12 300 (1/5)).current_level_index "")) ∧
    (feedGood (initAQ (initSC 1)) 5).current_level_index = 3 ∧
    (feedPoor (initAQ (initSC 1)) 3).current_level_index = 0 := by
  have h := C4_adaptive_quality_controller
  have h5 : (5 : ℚ) - (initAQ (initSC 1)).last_adjustment ≤ adjustment_interval := by
    norm_num [initAQ, adjustment_interval]
  have h12 : adjustment_interval < (12 : ℚ) - (initAQ (initSC 1)).last_adjustment := by
    norm_num [initAQ, adjustment_interval]
  have hch : (update_network_metrics (initAQ (initSC 1)) 12 300 (1/5)).current_level_index ≠
      (initAQ (initSC 1)).current_level_index := by
    rw [h.2.2.2.1 _ 12 300 (1/5) h12]
    decide
  exact ⟨⟨h5, ((h.2.2.1 _ 5 300 (1/5) h5).1).trans (by decide)⟩,
    ⟨h12, (h.2.2.2.1 _ 12 300 (1/5) h12).trans (by decide)⟩,
    ⟨by decide, h.2.2.2.2.1 _ 12 300 (1/5) h12 (by decide) hch⟩,
    (h.2.2.2.2.2.2.1 _ 5 (by decide)).trans (by decide),
    (h.2.2.2.2.2.2.2 _ 3).trans (by decide)⟩

/-! ## Claim C1 -/

/-- Writing a key into the student dict and reading it back yields the
written record. -/
theorem dictGet_dictSet (d : List (String × StudentRecord)) (k : String)
    (v : StudentRecord) : dictGet (dictSet d k v) k = some v := by
  induction d with
  | nil => simp [dictSet, dictGet]
  | cons p rest ih =>
      obtain ⟨k', v'⟩ := p
      by_cases h : k' == k
      · simp [dictSet, dictGet, h]
      · simp [dictSet, dictGet, h, ih]

/-- C1 (evaluation of the code at the claim's failing input): the
effective `handle_student_authentication` replies `auth_success` and
registers the client for every supplied `(session_code, password)` pair —
the handler never compares them with the session's credentials (its own
`TODO` says verification is missing).  In particular, against the session
registered with code `"ABCD1234"` and password `"p@ss"`, authenticating
with the mismatched pair `("WRONG", "nope")` succeeds and registers the
client, where the claim requires `auth_failed` and no registration. -/
theorem C1_authentication_accepts_any_pair :
    (∀ st : TeacherState, ∀ client_id student_name password session_code : String,
      (handle_student_authentication st client_id student_name password
          session_code).2 =
        AuthResponse.authSuccess client_id st.focus_mode_active
          st.keystroke_monitoring st.charging_monitoring ∧
      dictGet (handle_student_authentication st client_id student_name password
          session_code).1.connected_students client_id =
        some { name := student_name, status := "connected", violations := 0,
               keystroke_count := 0, battery_level := 100, is_charging := true,
               focus_active := false }) ∧
    ((handle_student_authentication demoTeacher "client-1" "Alice" "nope"
        "WRONG").2 = AuthResponse.authSuccess "client-1" false true true ∧
      dictGet (handle_student_authentication demoTeacher "client-1" "Alice"
          "nope" "WRONG").1.connected_students "client-1" = some demoStudent ∧
      ("WRONG", "nope") ≠ (demoTeacher.session_code, demoTeacher.session_password)) :=
  ⟨fun st _ _ _ _ => ⟨rfl, dictGet_dictSet st.connected_students _ _⟩,
   ⟨rfl, by decide, by decide⟩⟩

/-! ## Claim C9 -/

/-- C9 (evaluation of the code at the claim's failing input): the
effective `_toggle_focus_mode_async` (line 1896, which shadows the line
1568 duplicate) sets `focus_mode_active` and broadcasts
`focus_mode {enabled}`, but leaves every connected student record — and
hence each `focus_active` flag — untouched: with one connected student
whose flag is `false`, toggling focus mode on leaves it `false`, where
the claim requires it to become `true`.  The shadowed dead definition
would have set it. -/
theorem C9_toggle_focus_mode_students_not_updated :
    (∀ (st : TeacherState) (enabled : Bool),
      (toggle_focus_mode st enabled).1.focus_mode_active = enabled ∧
      (toggle_focus_mode st enabled).2 =
        { msgType := "focus_mode", enabled := enabled } ∧
      (toggle_focus_mode st enabled).1.connected_students =
        st.connected_students) ∧
    ((toggle_focus_mode demoTeacherWithStudent true).1.focus_mode_active = true ∧
      dictGet (toggle_focus_mode demoTeacherWithStudent true).1.connected_students
          "client-1" = some demoStudent ∧
      demoStudent.focus_active = false) ∧
    dictGet (toggle_focus_mode_shadowed demoTeacherWithStudent
        true).1.connected_students "client-1" =
      some { demoStudent with focus_active := true } :=
  ⟨fun _ _ => ⟨rfl, rfl, rfl⟩, ⟨rfl, by decide, rfl⟩, by decide⟩

end FocusClass
